import Mathlib

/-!
Verification development for the blue/green log-watcher program
(`watcher/watcher.py`).  The Python source is shallowly embedded below:
pure helpers become Lean functions, the mutable `LogWatcher` object becomes
an explicit `WatcherState` threaded through step functions, wall-clock
timestamps become `Int` time units, and the float error-rate arithmetic is
modelled over `ℚ`.  The fallible `int(status)` conversion is modelled with
`Except Unit`, whose `error` value corresponds to the `ValueError` that
escapes to the fatal handler in `main`.
-/

namespace Watcher

/-! ## Python-style string primitives

The watcher relies on Python's `str.lower`, `str.strip`, `str.split(',')`,
substring membership (`pat in s`) and `str.startswith`.  They are modelled
over `List Char` so that every use is executable and kernel-reducible.
-/

/-- Whitespace recognised by Python's `str.strip()` (ASCII subset, which is
all the watcher's inputs contain). -/
def isSpaceChar (c : Char) : Bool :=
  c == ' ' || c == '\t' || c == '\n' || c == '\r' || c == '\x0b' || c == '\x0c'

/-- Python `str.strip()`: drop leading and trailing whitespace. -/
def stripChars (l : List Char) : List Char :=
  ((l.dropWhile isSpaceChar).reverse.dropWhile isSpaceChar).reverse

/-- Python `s.split(',')`: split on every comma; `"".split(',') == ['']`. -/
def splitComma : List Char → List (List Char)
  | [] => [[]]
  | c :: cs =>
    if c = ',' then [] :: splitComma cs
    else
      match splitComma cs with
      | [] => [[c]]
      | h :: t => (c :: h) :: t

/-- ASCII lower-casing, modelling Python `str.lower()` on the watcher's
address inputs. -/
def lowerChar (c : Char) : Char :=
  if 65 ≤ c.toNat ∧ c.toNat ≤ 90 then Char.ofNat (c.toNat + 32) else c

/-- `startsHere pat s` holds when `pat` is an initial segment of `s`
(Python `s.startswith(pat)`). -/
def startsHere : List Char → List Char → Bool
  | [], _ => true
  | _ :: _, [] => false
  | p :: ps, c :: cs => p == c && startsHere ps cs

/-- `hasSub pat s` holds when `pat` occurs contiguously inside `s`
(Python `pat in s`). -/
def hasSub (pat : List Char) : List Char → Bool
  | [] => pat.isEmpty
  | c :: cs => startsHere pat (c :: cs) || hasSub pat cs

/-- Parse a CSV of known addresses the way `detect_pool_from_upstream`
parses the `BLUE_IPS` / `GREEN_IPS` environment values:
`[x.strip() for x in raw.split(',') if x.strip()]` (source lines 138, 142). -/
def csvItems (raw : String) : List (List Char) :=
  ((splitComma raw.toList).map stripChars).filter (fun a => a ≠ [])

/-- The trimmed, lower-cased last comma-separated token of an upstream
address (source lines 114-118): lower-case the whole field, split on `,`,
strip each piece, drop empties, take the last survivor, falling back to the
whole lower-cased field when none survives. -/
def lastAddr (upstream_addr : String) : List Char :=
  let addr_lower := upstream_addr.toList.map lowerChar
  let addrs := ((splitComma addr_lower).map stripChars).filter (fun a => a ≠ [])
  addrs.getLast?.getD addr_lower

/-- `LogWatcher.detect_pool_from_upstream` (source lines 106-148).
Returns `some "blue"` / `some "green"` for a detected pool and `none` for
Python's `None` (the Unknown outcome).  `blue_ips` and `green_ips` are the
raw `BLUE_IPS` / `GREEN_IPS` environment strings read inside the function. -/
def detect_pool_from_upstream (blue_ips green_ips : String) (upstream_addr : String) :
    Option String :=
  if upstream_addr = "" then none
  else if hasSub "blue".toList (lastAddr upstream_addr) then some "blue"
  else if hasSub "green".toList (lastAddr upstream_addr) then some "green"
  else if hasSub ":8081".toList (lastAddr upstream_addr)
          || hasSub "8081".toList (lastAddr upstream_addr) then some "blue"
  else if hasSub ":8082".toList (lastAddr upstream_addr)
          || hasSub "8082".toList (lastAddr upstream_addr) then some "green"
  else if (!(blue_ips == ""))
          && (csvItems blue_ips).any (fun ip => hasSub ip (lastAddr upstream_addr)) then
    some "blue"
  else if (!(green_ips == ""))
          && (csvItems green_ips).any (fun ip => hasSub ip (lastAddr upstream_addr)) then
    some "green"
  else none

/-- Comparison definition for claim C5, written from the spec's numbered
algorithm (spec section 4.1): empty input is Unknown; the last trimmed
comma token is classified by substring `blue`, then `green`, then `8081`,
then `8082`, then membership of a configured known address, else Unknown. -/
def classify_spec (blue_ips green_ips : String) (upstream_addr : String) :
    Option String :=
  if upstream_addr = "" then none
  else if hasSub "blue".toList (lastAddr upstream_addr) then some "blue"
  else if hasSub "green".toList (lastAddr upstream_addr) then some "green"
  else if hasSub "8081".toList (lastAddr upstream_addr) then some "blue"
  else if hasSub "8082".toList (lastAddr upstream_addr) then some "green"
  else if (csvItems blue_ips).any (fun ip => hasSub ip (lastAddr upstream_addr)) then
    some "blue"
  else if (csvItems green_ips).any (fun ip => hasSub ip (lastAddr upstream_addr)) then
    some "green"
  else none

/-! ## JSON field values and the error classifier -/

/-- The shapes a consumed JSON field takes: absent/null, an integer, or a
string (the only shapes the watcher's fields carry). -/
inductive JVal where
  | jnull : JVal
  | jnum (n : Int) : JVal
  | jstr (s : String) : JVal
deriving DecidableEq

/-- Python truthiness for the modelled JSON values: `None`, `0` and `""`
are falsy. -/
def pyTruthy : JVal → Bool
  | .jnull => false
  | .jnum n => !(n == 0)
  | .jstr s => !(s == "")

/-- Value of an all-digit character list; `none` when empty or when a
non-digit appears. -/
def digitsVal (l : List Char) : Option Nat :=
  if l = [] then none
  else
    l.foldl
      (fun acc c =>
        match acc with
        | none => none
        | some a => if c.isDigit then some (a * 10 + (c.toNat - 48)) else none)
      (some 0)

/-- Python `int(s)` on a string: strip whitespace, optional sign, decimal
digits; `none` models the `ValueError` raised otherwise. -/
def pyIntOfString (s : String) : Option Int :=
  match stripChars s.toList with
  | '+' :: rest => (digitsVal rest).map (fun n => (n : Int))
  | '-' :: rest => (digitsVal rest).map (fun n => -(n : Int))
  | rest => (digitsVal rest).map (fun n => (n : Int))

/-- Python `int(v)` on a field value (`none` models a raised exception). -/
def pyInt : JVal → Option Int
  | .jnull => none
  | .jnum n => some n
  | .jstr s => pyIntOfString s

/-- Python `str(v)` for the modelled values. -/
def pyStr : JVal → String
  | .jnull => "None"
  | .jnum n => toString n
  | .jstr s => s

/-- The `upstream_status` half of the error rule (source line 260):
`upstream_status and str(upstream_status).startswith('5')`. -/
def upstream_is_5xx (u : JVal) : Bool :=
  pyTruthy u && startsHere "5".toList (pyStr u).toList

/-- The error classification of `process_log_entry` (source lines 257-261):
`if status and int(status) >= 500: ... elif upstream_status and
str(upstream_status).startswith('5'): ...`.  `Except.error ()` models the
`ValueError` raised by `int` on a truthy non-numeric status, which escapes
`process_log_entry` and reaches the fatal handler in `main`. -/
def is_error (status upstream_status : JVal) : Except Unit Bool :=
  if pyTruthy status then
    match pyInt status with
    | none => .error ()
    | some n =>
      if 500 ≤ n then .ok true
      else .ok (upstream_is_5xx upstream_status)
  else .ok (upstream_is_5xx upstream_status)

/-- Comparison definition for claim C4, written from the spec's rule
(spec section 4.2): true iff the status is present and numerically at least
500, or else the upstream status as text starts with `5`; a status that
cannot be parsed is treated as absent instead of raising. -/
def isError_claim (status upstream_status : JVal) : Bool :=
  (match (if pyTruthy status then pyInt status else none) with
   | some n => decide (500 ≤ n)
   | none => false)
  || upstream_is_5xx upstream_status

/-! ## Configuration, watcher state, notifier -/

/-- The environment-derived configuration read in `LogWatcher.__init__`
(source lines 13-18) plus the `BLUE_IPS` / `GREEN_IPS` values read in
`detect_pool_from_upstream`.  `has_webhook` is the truthiness of
`SLACK_WEBHOOK_URL`; the float threshold is modelled over `ℚ`; wall-clock
seconds are modelled as `Int` time units. -/
structure Config where
  has_webhook : Bool
  maintenance_mode : Bool
  active_pool : String
  error_rate_threshold : ℚ
  window_size : Nat
  alert_cooldown : Int
  blue_ips : String
  green_ips : String
deriving DecidableEq

/-- The mutable fields of the `LogWatcher` object (source lines 20-24). -/
structure WatcherState where
  last_pool : String
  request_window : List Bool
  last_failover_alert : Int
  last_error_rate_alert : Int
  log_count : Nat
deriving DecidableEq

/-- The state right after `LogWatcher.__init__` (source lines 20-24):
`last_pool` is the configured active pool, the window is empty, and both
alert timestamps are `0`. -/
def init_state (cfg : Config) : WatcherState :=
  { last_pool := cfg.active_pool
    request_window := []
    last_failover_alert := 0
    last_error_rate_alert := 0
    log_count := 0 }

/-- Alert events dispatched by the detectors: a failover alert names the
previous and new pool (source lines 172-181); an error-rate alert carries
the computed rate, the error and total counts, and the configured window
size (source lines 208-218). -/
inductive AlertEvent where
  | failover (old_pool new_pool : String) : AlertEvent
  | errorRate (rate : ℚ) (error_count total_count window_size : Nat) : AlertEvent
deriving DecidableEq

/-- Whether an alert event is an error-rate alert. -/
def isErrorRateAlert : AlertEvent → Bool
  | .errorRate _ _ _ _ => true
  | .failover _ _ => false

/-- Outcome of one `send_slack_alert` call: returned `False` with no HTTP
attempt because no webhook is configured (source lines 38-40) or because
maintenance mode suppresses a non-critical kind (source lines 42-44), or
an HTTP post was attempted whose success is the `delivered` flag (source
lines 87-104; a timeout or exception yields `delivered = false`). -/
inductive SendOutcome where
  | noWebhook : SendOutcome
  | suppressed : SendOutcome
  | posted (delivered : Bool) : SendOutcome
deriving DecidableEq

/-- The boolean `send_slack_alert` returns to its caller. -/
def sendReturn : SendOutcome → Bool
  | .posted ok => ok
  | _ => false

/-- Decision logic of `LogWatcher.send_slack_alert` (source lines 34-104).
`httpOk` abstracts whether the HTTP post to the webhook succeeds with
status 200; the network call itself is an external collaborator. -/
def send_slack_alert (cfg : Config) (httpOk : Bool) (alert_type : String) :
    SendOutcome :=
  if !cfg.has_webhook then .noWebhook
  else if cfg.maintenance_mode && !(alert_type == "critical") then .suppressed
  else .posted httpOk

/-! ## Sliding window -/

/-- One `append` on `deque(maxlen := cap)` (source lines 21 and 266): the
new element goes to the right and the oldest elements are evicted from the
left so that at most `cap` remain. -/
def dequePush (cap : Nat) (w : List Bool) (b : Bool) : List Bool :=
  (w ++ [b]).drop ((w ++ [b]).length - cap)

/-- The error rate computed in `check_error_rate` (source lines 192-194):
`(error_count / total_count) * 100`, over `ℚ` (division by zero yields `0`,
matching the spec's "0 if empty" reading of an unreachable branch). -/
def error_rate (w : List Bool) : ℚ :=
  (((w.count true : ℚ)) / ((w.length : ℚ))) * 100

/-! ## Detectors -/

/-- `LogWatcher.check_failover` (source lines 150-185), with the
notification transport elided: the state transition and the decision to
alert are exactly the source's; the `send_slack_alert` call sits between
the `last_pool` and `last_failover_alert` updates but its return value is
ignored by the source, so it cannot affect them (see
`check_failover_full`).  `pool = none` and `pool = some ""` are Python's
falsy values caught by `if not pool`. -/
def check_failover (cfg : Config) (s : WatcherState) (pool : Option String)
    (now : Int) : WatcherState × Option AlertEvent :=
  match pool with
  | none => (s, none)
  | some p =>
    if p = "" then (s, none)
    else if p = s.last_pool then (s, none)
    else if now - s.last_failover_alert < cfg.alert_cooldown then (s, none)
    else ({ s with last_pool := p, last_failover_alert := now },
          some (.failover s.last_pool p))

/-- `LogWatcher.check_failover` with the `send_slack_alert` call kept
(source lines 150-185, in source order: update `last_pool`, send, update
`last_failover_alert`, return `True`). -/
def check_failover_full (cfg : Config) (httpOk : Bool) (s : WatcherState)
    (pool : Option String) (now : Int) :
    WatcherState × Bool × Option SendOutcome :=
  match pool with
  | none => (s, false, none)
  | some p =>
    if p = "" then (s, false, none)
    else if p = s.last_pool then (s, false, none)
    else if now - s.last_failover_alert < cfg.alert_cooldown then (s, false, none)
    else
      let s1 := { s with last_pool := p }
      let outcome := send_slack_alert cfg httpOk "failover"
      ({ s1 with last_failover_alert := now }, true, some outcome)

/-- `LogWatcher.check_error_rate` (source lines 187-222), notification
transport elided as in `check_failover`. -/
def check_error_rate (cfg : Config) (s : WatcherState) (now : Int) :
    WatcherState × Option AlertEvent :=
  if s.request_window.length < 20 then (s, none)
  else if error_rate s.request_window ≤ cfg.error_rate_threshold then (s, none)
  else if now - s.last_error_rate_alert < cfg.alert_cooldown then (s, none)
  else ({ s with last_error_rate_alert := now },
        some (.errorRate (error_rate s.request_window)
          (s.request_window.count true) s.request_window.length cfg.window_size))

/-- `LogWatcher.check_error_rate` with the `send_slack_alert` call kept
(source lines 187-222, in source order: send, update
`last_error_rate_alert`, return `True`). -/
def check_error_rate_full (cfg : Config) (httpOk : Bool) (s : WatcherState)
    (now : Int) : WatcherState × Bool × Option SendOutcome :=
  if s.request_window.length < 20 then (s, false, none)
  else if error_rate s.request_window ≤ cfg.error_rate_threshold then (s, false, none)
  else if now - s.last_error_rate_alert < cfg.alert_cooldown then (s, false, none)
  else
    let outcome := send_slack_alert cfg httpOk "error_rate"
    ({ s with last_error_rate_alert := now }, true, some outcome)

/-! ## Ingest pipeline -/

/-- A parsed log record with the four fields `process_log_entry` consumes
(source lines 240-246). -/
structure LogEntry where
  pool : Option String
  upstream_addr : Option String
  status : JVal
  upstream_status : JVal
deriving DecidableEq

/-- Python truthiness of an optional string. -/
def optTruthy : Option String → Bool
  | none => false
  | some s => !(s == "")

/-- Pool resolution in `process_log_entry` (source lines 240-243): use the
record's own `pool` field unless it is absent, empty, or the placeholder
`"-"`, in which case infer it from `upstream_addr` (defaulting to `""`). -/
def resolve_pool (cfg : Config) (e : LogEntry) : Option String :=
  if !(optTruthy e.pool) || (e.pool == some "-") then
    detect_pool_from_upstream cfg.blue_ips cfg.green_ips (e.upstream_addr.getD "")
  else e.pool

/-- The failover step of `process_log_entry` (source lines 253-254):
`check_failover` runs only when the resolved pool is truthy. -/
def failover_stage (cfg : Config) (s : WatcherState) (pool : Option String)
    (now : Int) : WatcherState × Option AlertEvent :=
  if optTruthy pool then check_failover cfg s pool now else (s, none)

/-- The window/error-rate step of `process_log_entry` (source lines
266-270): push the verdict, then evaluate `check_error_rate` once the
window holds at least 20 entries. -/
def error_stage (cfg : Config) (s : WatcherState) (isErr : Bool) (now : Int) :
    WatcherState × Option AlertEvent :=
  let s3 := { s with request_window := dequePush cfg.window_size s.request_window isErr }
  if 20 ≤ s3.request_window.length then check_error_rate cfg s3 now else (s3, none)

/-- `LogWatcher.process_log_entry` (source lines 232-270) for a non-empty
parsed record: bump `log_count`, resolve the pool, run the failover check,
classify the error, push into the window and run the error-rate check.
The result lists the alert events dispatched while processing this record;
the final `Bool` is `true` when `int(status)` raised, in which case the
failover update has already happened but the window push has not, and the
exception terminates the process. -/
def process_log_entry (cfg : Config) (s0 : WatcherState) (e : LogEntry)
    (now : Int) : WatcherState × List AlertEvent × Bool :=
  let s1 := { s0 with log_count := s0.log_count + 1 }
  let f := failover_stage cfg s1 (resolve_pool cfg e) now
  match is_error e.status e.upstream_status with
  | .error _ => (f.1, f.2.toList, true)
  | .ok isErr =>
    let r := error_stage cfg f.1 isErr now
    (r.1, f.2.toList ++ r.2.toList, false)

/-- Sequential processing of records, each paired with the wall-clock time
at which it is handled; a raised `ValueError` stops the run (the process
exits through the fatal handler).  Returns the final state and every alert
event dispatched. -/
def process_trace (cfg : Config) (s : WatcherState) :
    List (LogEntry × Int) → WatcherState × List AlertEvent
  | [] => (s, [])
  | (e, t) :: rest =>
    let r := process_log_entry cfg s e t
    if r.2.2 then (r.1, r.2.1)
    else
      let r2 := process_trace cfg r.1 rest
      (r2.1, r.2.1 ++ r2.2)

/-! ## Detector-level traces (for the cooldown invariant) -/

/-- The times at which `check_failover` fires over a sequence of observed
pools, each observed at its own wall-clock time. -/
def failover_alert_times (cfg : Config) (s : WatcherState) :
    List (Option String × Int) → List Int
  | [] => []
  | (p, t) :: rest =>
    match (check_failover cfg s p t).2 with
    | some _ => t :: failover_alert_times cfg (check_failover cfg s p t).1 rest
    | none => failover_alert_times cfg (check_failover cfg s p t).1 rest

/-- The times at which `check_error_rate` fires over a sequence of
evaluations, each against the window contents current at that time. -/
def error_rate_alert_times (cfg : Config) (s : WatcherState) :
    List (List Bool × Int) → List Int
  | [] => []
  | (w, t) :: rest =>
    match (check_error_rate cfg { s with request_window := w } t).2 with
    | some _ =>
      t :: error_rate_alert_times cfg
        (check_error_rate cfg { s with request_window := w } t).1 rest
    | none =>
      error_rate_alert_times cfg
        (check_error_rate cfg { s with request_window := w } t).1 rest

/-! ## Startup notification -/

/-- The startup message built in `main` (source line 311). -/
def startup_message (cfg : Config) : String :=
  "*Watcher Started*\n\nMonitoring is now active.\nInitial pool: `"
    ++ cfg.active_pool ++ "`"

/-- The notifications `main` hands to the notifier before entering the
ingest loop (source lines 309-312): exactly one, of kind `"info"`, with
the startup message; the recorded `SendOutcome` is what
`send_slack_alert` does with it. -/
def main_startup (cfg : Config) (httpOk : Bool) :
    List (String × String × SendOutcome) :=
  [(startup_message cfg, "info", send_slack_alert cfg httpOk "info")]

/-! ## Concrete configurations used by examples and counterexamples -/

/-- The all-default configuration (source lines 13-18 defaults: pool
`"blue"`, threshold 2 percent, window 200, cooldown 300) with a webhook
configured and maintenance mode off. -/
def cfgBase : Config :=
  { has_webhook := true
    maintenance_mode := false
    active_pool := "blue"
    error_rate_threshold := 2
    window_size := 200
    alert_cooldown := 300
    blue_ips := ""
    green_ips := "" }

/-- `cfgBase` with maintenance mode enabled. -/
def cfgMaint : Config := { cfgBase with maintenance_mode := true }

/-! ## Helper lemmas about the string primitives -/

lemma startsHere_implies_hasSub (p l : List Char) (h : startsHere p l = true) :
    hasSub p l = true := by
  cases l with
  | nil =>
    cases p with
    | nil => rfl
    | cons c cs => simp [startsHere] at h
  | cons c cs => simp [hasSub, h]

lemma hasSub_cons_elim (c : Char) (p l : List Char)
    (h : hasSub (c :: p) l = true) : hasSub p l = true := by
  induction l with
  | nil => simp [hasSub, List.isEmpty] at h
  | cons d ds ih =>
    simp only [hasSub, Bool.or_eq_true] at h ⊢
    rcases h with h | h
    · simp only [startsHere, Bool.and_eq_true] at h
      exact Or.inr (startsHere_implies_hasSub p ds h.2)
    · exact Or.inr (ih h)

lemma hasSub_cons_absorb (c : Char) (p l : List Char) :
    (hasSub (c :: p) l || hasSub p l) = hasSub p l := by
  cases h : hasSub (c :: p) l
  · simp
  · simp [hasSub_cons_elim c p l h]

lemma csvItems_empty : csvItems "" = [] := by decide

lemma csv_guard_absorb (s : String) (l : List Char) :
    ((!(s == "")) && (csvItems s).any (fun ip => hasSub ip l))
      = (csvItems s).any (fun ip => hasSub ip l) := by
  cases h : s == ""
  · simp
  · have hs : s = "" := eq_of_beq h
    subst hs
    simp [csvItems_empty]

lemma startsHere_self_append (p rest : List Char) :
    startsHere p (p ++ rest) = true := by
  induction p with
  | nil => rfl
  | cons c cs ih => simp [startsHere, ih]

lemma hasSub_append_middle (pre pat post : List Char) :
    hasSub pat (pre ++ pat ++ post) = true := by
  induction pre with
  | nil =>
    cases hp : pat with
    | nil =>
      cases post with
      | nil => rfl
      | cons d ds => simp [hasSub, startsHere]
    | cons c cs =>
      simp only [List.nil_append, List.cons_append, hasSub, Bool.or_eq_true]
      exact Or.inl (by simpa using startsHere_self_append (c :: cs) post)
  | cons d ds ih =>
    simp only [List.cons_append, hasSub, Bool.or_eq_true]
    exact Or.inr (by simpa using ih)

/-- The C5 refinement: the source's classifier coincides with the spec's
ordered rule list on every input. -/
lemma detect_eq_classify (b g u : String) :
    detect_pool_from_upstream b g u = classify_spec b g u := by
  unfold detect_pool_from_upstream classify_spec
  have e1 : (":8081".toList : List Char) = ':' :: "8081".toList := by decide
  have e2 : (":8082".toList : List Char) = ':' :: "8082".toList := by decide
  simp only [e1, e2, hasSub_cons_absorb, csv_guard_absorb]

/-! ## Helper lemmas about the sliding window -/

lemma dequePush_length_le (cap : Nat) (w : List Bool) (b : Bool) :
    (dequePush cap w b).length ≤ cap := by
  simp only [dequePush, List.length_drop]
  omega

lemma dequePush_foldl (cap : Nat) (w : List Bool) (bs : List Bool)
    (hw : w.length ≤ cap) :
    List.foldl (dequePush cap) w bs = (w ++ bs).drop ((w ++ bs).length - cap) := by
  induction bs generalizing w with
  | nil =>
    simp only [List.foldl_nil, List.append_nil]
    rw [Nat.sub_eq_zero_of_le hw, List.drop_zero]
  | cons b bs ih =>
    rw [List.foldl_cons, ih _ (dequePush_length_le cap w b)]
    unfold dequePush
    rw [← List.drop_append_of_le_length (Nat.sub_le _ _), List.drop_drop]
    have hl : (w ++ [b]) ++ bs = w ++ b :: bs := by simp
    rw [hl]
    congr 1
    simp only [List.length_drop, List.length_append, List.length_cons,
      List.length_nil, List.length_singleton]
    omega

lemma window_after_pushes (cap : Nat) (bs : List Bool) :
    List.foldl (dequePush cap) [] bs = bs.drop (bs.length - cap) := by
  have h := dequePush_foldl cap [] bs (by simp)
  simpa using h

/-! ## Helper lemmas about the detectors -/

lemma check_failover_none_state (cfg : Config) (s : WatcherState)
    (p : Option String) (now : Int)
    (h : (check_failover cfg s p now).2 = none) :
    (check_failover cfg s p now).1 = s := by
  cases p with
  | none => rfl
  | some q =>
    by_cases h1 : q = ""
    · simp [check_failover, h1]
    · by_cases h2 : q = s.last_pool
      · simp [check_failover, h1, h2]
      · by_cases h3 : now - s.last_failover_alert < cfg.alert_cooldown
        · simp [check_failover, h1, h2, h3]
        · exfalso
          simp [check_failover, h1, h2, h3] at h

lemma check_failover_some_state (cfg : Config) (s : WatcherState)
    (p : Option String) (now : Int) (a : AlertEvent)
    (h : (check_failover cfg s p now).2 = some a) :
    (check_failover cfg s p now).1.last_failover_alert = now
      ∧ cfg.alert_cooldown ≤ now - s.last_failover_alert := by
  cases p with
  | none => simp [check_failover] at h
  | some q =>
    by_cases h1 : q = ""
    · simp [check_failover, h1] at h
    · by_cases h2 : q = s.last_pool
      · simp [check_failover, h1, h2] at h
      · by_cases h3 : now - s.last_failover_alert < cfg.alert_cooldown
        · simp [check_failover, h1, h2, h3] at h
        · refine ⟨?_, by omega⟩
          simp [check_failover, h1, h2, h3]

lemma check_failover_alert_is_failover (cfg : Config) (s : WatcherState)
    (p : Option String) (now : Int) (a : AlertEvent)
    (h : (check_failover cfg s p now).2 = some a) :
    isErrorRateAlert a = false := by
  cases p with
  | none => simp [check_failover] at h
  | some q =>
    by_cases h1 : q = ""
    · simp [check_failover, h1] at h
    · by_cases h2 : q = s.last_pool
      · simp [check_failover, h1, h2] at h
      · by_cases h3 : now - s.last_failover_alert < cfg.alert_cooldown
        · simp [check_failover, h1, h2, h3] at h
        · simp [check_failover, h1, h2, h3] at h
          rw [← h]
          rfl

lemma check_error_rate_none_state (cfg : Config) (s : WatcherState) (now : Int)
    (h : (check_error_rate cfg s now).2 = none) :
    (check_error_rate cfg s now).1 = s := by
  by_cases h1 : s.request_window.length < 20
  · simp [check_error_rate, h1]
  · by_cases h2 : error_rate s.request_window ≤ cfg.error_rate_threshold
    · simp [check_error_rate, h1, h2]
    · by_cases h3 : now - s.last_error_rate_alert < cfg.alert_cooldown
      · simp [check_error_rate, h1, h2, h3]
      · exfalso
        simp [check_error_rate, h1, h2, h3] at h

lemma check_error_rate_some_state (cfg : Config) (s : WatcherState) (now : Int)
    (a : AlertEvent) (h : (check_error_rate cfg s now).2 = some a) :
    (check_error_rate cfg s now).1.last_error_rate_alert = now
      ∧ cfg.alert_cooldown ≤ now - s.last_error_rate_alert := by
  by_cases h1 : s.request_window.length < 20
  · simp [check_error_rate, h1] at h
  · by_cases h2 : error_rate s.request_window ≤ cfg.error_rate_threshold
    · simp [check_error_rate, h1, h2] at h
    · by_cases h3 : now - s.last_error_rate_alert < cfg.alert_cooldown
      · simp [check_error_rate, h1, h2, h3] at h
      · refine ⟨?_, by omega⟩
        simp [check_error_rate, h1, h2, h3]

lemma failover_times_spec (cfg : Config) (events : List (Option String × Int)) :
    ∀ s : WatcherState,
      List.Chain' (fun a b => cfg.alert_cooldown ≤ b - a)
        (failover_alert_times cfg s events)
      ∧ ∀ t0 ∈ (failover_alert_times cfg s events).head?,
          cfg.alert_cooldown ≤ t0 - s.last_failover_alert := by
  induction events with
  | nil =>
    intro s
    simp [failover_alert_times]
  | cons ev rest ih =>
    intro s
    obtain ⟨p, t⟩ := ev
    cases hc : (check_failover cfg s p t).2 with
    | none =>
      have hs := check_failover_none_state cfg s p t hc
      simp only [failover_alert_times, hc, hs]
      exact ih s
    | some a =>
      have hsome := check_failover_some_state cfg s p t a hc
      simp only [failover_alert_times, hc]
      constructor
      · rw [List.chain'_cons']
        refine ⟨?_, (ih _).1⟩
        intro y hy
        have := (ih ((check_failover cfg s p t).1)).2 y hy
        omega
      · intro t0 ht0
        simp only [List.head?_cons, Option.mem_def, Option.some.injEq] at ht0
        subst ht0
        exact hsome.2

lemma error_rate_times_spec (cfg : Config) (events : List (List Bool × Int)) :
    ∀ s : WatcherState,
      List.Chain' (fun a b => cfg.alert_cooldown ≤ b - a)
        (error_rate_alert_times cfg s events)
      ∧ ∀ t0 ∈ (error_rate_alert_times cfg s events).head?,
          cfg.alert_cooldown ≤ t0 - s.last_error_rate_alert := by
  induction events with
  | nil =>
    intro s
    simp [error_rate_alert_times]
  | cons ev rest ih =>
    intro s
    obtain ⟨w, t⟩ := ev
    cases hc : (check_error_rate cfg { s with request_window := w } t).2 with
    | none =>
      have hs := check_error_rate_none_state cfg { s with request_window := w } t hc
      simp only [error_rate_alert_times, hc, hs]
      exact ih { s with request_window := w }
    | some a =>
      have hsome := check_error_rate_some_state cfg { s with request_window := w } t a hc
      simp only [error_rate_alert_times, hc]
      constructor
      · rw [List.chain'_cons']
        refine ⟨?_, (ih _).1⟩
        intro y hy
        have := (ih ((check_error_rate cfg { s with request_window := w } t).1)).2 y hy
        omega
      · intro t0 ht0
        simp only [List.head?_cons, Option.mem_def, Option.some.injEq] at ht0
        subst ht0
        have h2 := hsome.2
        simp only at h2
        exact h2

/-! ## Claim theorems -/

/-- C5: for every input, `detect_pool_from_upstream` operates on the last
comma-separated token (trimmed, lower-cased) and applies the spec's rules
in strict precedence — it equals the rule list `classify_spec` on all
inputs (and, being total, never fails on malformed input) — and the spec's
examples evaluate as stated, with `"10.0.0.5:8082, 10.0.0.2:8081"`
classified blue because the last segment wins and `""` Unknown. -/
theorem pool_classifier_matches_spec :
    (∀ blue_ips green_ips upstream_addr : String,
       detect_pool_from_upstream blue_ips green_ips upstream_addr
         = classify_spec blue_ips green_ips upstream_addr)
    ∧ detect_pool_from_upstream "" "" "10.0.0.2:8081" = some "blue"
    ∧ detect_pool_from_upstream "" "" "10.0.0.5:8082, 10.0.0.2:8081" = some "blue"
    ∧ detect_pool_from_upstream "" "" "" = none
    ∧ detect_pool_from_upstream "" "" "my-green-service:4000" = some "green" :=
  ⟨detect_eq_classify, by decide, by decide, by decide, by decide⟩

/-- C6: after any sequence of pushes into the window, the error rate of
`check_error_rate` equals `100 * (true entries among the last
min(pushes, capacity) pushes) / min(pushes, capacity)`, and it is `0` for
an empty window. -/
theorem error_rate_matches_window_contents :
    (∀ (cap : Nat) (bs : List Bool),
       error_rate (List.foldl (dequePush cap) [] bs)
         = 100 * (((bs.drop (bs.length - cap)).count true : ℚ))
             / (((min bs.length cap : Nat) : ℚ)))
    ∧ error_rate [] = 0 := by
  constructor
  · intro cap bs
    rw [window_after_pushes]
    have hlen : (bs.drop (bs.length - cap)).length = min bs.length cap := by
      rw [List.length_drop]
      omega
    rw [error_rate, hlen]
    ring
  · simp [error_rate]

/-- C7: the window built by any sequence of pushes never exceeds the
configured capacity, holds exactly the most recent entries in insertion
order (the suffix of the push sequence — so after more than `cap` pushes,
exactly the most recent `cap` entries, oldest evicted), and has length
`min pushes cap`. -/
theorem window_ring_eviction :
    ∀ (cap : Nat) (bs : List Bool),
      (List.foldl (dequePush cap) [] bs).length ≤ cap
      ∧ List.foldl (dequePush cap) [] bs = bs.drop (bs.length - cap)
      ∧ (List.foldl (dequePush cap) [] bs).length = min bs.length cap := by
  intro cap bs
  have h := window_after_pushes cap bs
  refine ⟨?_, h, ?_⟩
  · rw [h, List.length_drop]
    omega
  · rw [h, List.length_drop]
    omega

/-- C3: along any sequence of processed observations, each detector's
consecutive alert times are at least one cooldown apart — the cooldown is
measured from the previous alert the detector dispatched, and suppressed
attempts do not reset it (they leave the recorded timestamp unchanged, as
`check_failover_none_state` / `check_error_rate_none_state` show). -/
theorem detectors_never_alert_within_cooldown :
    (∀ (cfg : Config) (s : WatcherState) (events : List (Option String × Int)),
       List.Chain' (fun a b => cfg.alert_cooldown ≤ b - a)
         (failover_alert_times cfg s events))
    ∧ (∀ (cfg : Config) (s : WatcherState) (events : List (List Bool × Int)),
       List.Chain' (fun a b => cfg.alert_cooldown ≤ b - a)
         (error_rate_alert_times cfg s events)) :=
  ⟨fun cfg s events => (failover_times_spec cfg events s).1,
   fun cfg s events => (error_rate_times_spec cfg events s).1⟩

/-- C1 counterexample: from the freshly initialised watcher (active pool
`"blue"`, `last_failover_alert = 0`, cooldown 300), `check_failover` with
pool `"green"` at `now = 0` does NOT fire — `0 - 0 < 300` lands in the
cooldown branch — and `last_pool` stays `"blue"`, contradicting the claim
that `observe("green", t=0)` fires and sets the pool to `"green"`. -/
theorem first_transition_at_time_zero_suppressed :
    (check_failover cfgBase (init_state cfgBase) (some "green") 0).2 = none
    ∧ (check_failover cfgBase (init_state cfgBase) (some "green") 0).1.last_pool
        = "blue" := by
  constructor <;> decide

/-- C1 (amended): `check_failover` is a no-op on an Unknown pool or on the
current `last_pool`; a differing pool within cooldown of
`last_failover_alert` is suppressed without updating `last_pool`;
otherwise it updates `last_pool` and `last_failover_alert` and returns a
failover alert naming the previous and new pool.  The example scenario
holds once the first observation happens at a time `t0` with
`t0 - 0 ≥ cooldown` (as wall-clock time always satisfies; shown here at
`t0 = 300`): the first transition to `"green"` fires, `observe("blue")`
one time-unit later is suppressed leaving `last_pool = "green"`, and
`observe("blue")` at `t0 + cooldown + 1` fires. -/
theorem check_failover_behavior :
    (∀ (cfg : Config) (s : WatcherState) (now : Int),
       check_failover cfg s none now = (s, none)
       ∧ check_failover cfg s (some "") now = (s, none))
    ∧ (∀ (cfg : Config) (s : WatcherState) (now : Int),
       check_failover cfg s (some s.last_pool) now = (s, none))
    ∧ (∀ (cfg : Config) (s : WatcherState) (p : String) (now : Int),
       p ≠ "" → p ≠ s.last_pool →
       now - s.last_failover_alert < cfg.alert_cooldown →
       check_failover cfg s (some p) now = (s, none))
    ∧ (∀ (cfg : Config) (s : WatcherState) (p : String) (now : Int),
       p ≠ "" → p ≠ s.last_pool →
       cfg.alert_cooldown ≤ now - s.last_failover_alert →
       check_failover cfg s (some p) now
         = ({ s with last_pool := p, last_failover_alert := now },
            some (.failover s.last_pool p)))
    ∧ ((check_failover cfgBase (init_state cfgBase) (some "green") 300).1.last_pool
         = "green"
       ∧ (check_failover cfgBase (init_state cfgBase) (some "green") 300).2
           = some (.failover "blue" "green")
       ∧ check_failover cfgBase
           (check_failover cfgBase (init_state cfgBase) (some "green") 300).1
           (some "blue") 301
         = ((check_failover cfgBase (init_state cfgBase) (some "green") 300).1, none)
       ∧ (check_failover cfgBase
           (check_failover cfgBase (init_state cfgBase) (some "green") 300).1
           (some "blue") 601).2 = some (.failover "green" "blue")) := by
  refine ⟨?_, ?_, ?_, ?_, ?_⟩
  · intro cfg s now
    exact ⟨rfl, by simp [check_failover]⟩
  · intro cfg s now
    by_cases h : s.last_pool = ""
    · simp [check_failover, h]
    · simp [check_failover, h]
  · intro cfg s p now h1 h2 h3
    simp [check_failover, h1, h2, h3]
  · intro cfg s p now h1 h2 h3
    simp [check_failover, h1, h2, not_lt.2 h3]
  · refine ⟨by decide, by decide, by decide, by decide⟩

/-- C1 witness: the amended firing rule instantiated at a concrete input
(transition from `"blue"` to `"green"` at time 400, past the cooldown). -/
theorem check_failover_behavior_witness :
    check_failover cfgBase
      { last_pool := "blue", request_window := [], last_failover_alert := 0,
        last_error_rate_alert := 0, log_count := 0 } (some "green") 400
      = ({ last_pool := "green", request_window := [], last_failover_alert := 400,
           last_error_rate_alert := 0, log_count := 0 },
         some (.failover "blue" "green")) := by
  exact check_failover_behavior.2.2.2.1 cfgBase
    { last_pool := "blue", request_window := [], last_failover_alert := 0,
      last_error_rate_alert := 0, log_count := 0 } "green" 400
    (by decide) (by decide) (by decide)

/-- C2: `check_error_rate` produces no alert when the window holds fewer
than 20 entries (even at a 100 percent rate, as the 19-error window shows),
none when the rate is at most the threshold, none within cooldown of the
last error-rate alert (leaving the state unchanged), and otherwise sets
`last_error_rate_alert := now` and returns an error-rate alert carrying
the computed rate, the error and total counts, and the window size.  The
example: a 20-entry window with one error (5 percent) against threshold 2
alerts (first evaluation at `now = 300`, past the initial cooldown), and a
second evaluation one time-unit later is suppressed. -/
theorem check_error_rate_behavior :
    (∀ (cfg : Config) (s : WatcherState) (now : Int),
       s.request_window.length < 20 → check_error_rate cfg s now = (s, none))
    ∧ (∀ (cfg : Config) (s : WatcherState) (now : Int),
       error_rate s.request_window ≤ cfg.error_rate_threshold →
       check_error_rate cfg s now = (s, none))
    ∧ (∀ (cfg : Config) (s : WatcherState) (now : Int),
       now - s.last_error_rate_alert < cfg.alert_cooldown →
       check_error_rate cfg s now = (s, none))
    ∧ (∀ (cfg : Config) (s : WatcherState) (now : Int),
       ¬ s.request_window.length < 20 →
       cfg.error_rate_threshold < error_rate s.request_window →
       cfg.alert_cooldown ≤ now - s.last_error_rate_alert →
       check_error_rate cfg s now
         = ({ s with last_error_rate_alert := now },
            some (.errorRate (error_rate s.request_window)
              (s.request_window.count true) s.request_window.length
              cfg.window_size)))
    ∧ (∀ now : Int,
       check_error_rate cfgBase
         { init_state cfgBase with request_window := List.replicate 19 true } now
         = ({ init_state cfgBase with request_window := List.replicate 19 true },
            none))
    ∧ (check_error_rate cfgBase
         { init_state cfgBase with
             request_window := true :: List.replicate 19 false } 300
         = ({ init_state cfgBase with
                request_window := true :: List.replicate 19 false,
                last_error_rate_alert := 300 },
            some (.errorRate 5 1 20 200))
       ∧ check_error_rate cfgBase
           { init_state cfgBase with
               request_window := true :: List.replicate 19 false,
               last_error_rate_alert := 300 } 301
         = ({ init_state cfgBase with
                request_window := true :: List.replicate 19 false,
                last_error_rate_alert := 300 }, none)) := by
  refine ⟨?_, ?_, ?_, ?_, ?_, ?_, ?_⟩
  · intro cfg s now h
    simp [check_error_rate, h]
  · intro cfg s now h
    by_cases h1 : s.request_window.length < 20
    · simp [check_error_rate, h1]
    · simp [check_error_rate, h1, h]
  · intro cfg s now h
    by_cases h1 : s.request_window.length < 20
    · simp [check_error_rate, h1]
    · by_cases h2 : error_rate s.request_window ≤ cfg.error_rate_threshold
      · simp [check_error_rate, h1, h2]
      · simp [check_error_rate, h1, h2, h]
  · intro cfg s now h1 h2 h3
    simp [check_error_rate, h1, not_le.2 h2, not_lt.2 h3]
  · intro now
    simp [check_error_rate, init_state]
  · have h1 : (true :: List.replicate 19 false).count true = 1 := by decide
    have h2 : (true :: List.replicate 19 false).length = 20 := by decide
    have hr : error_rate (true :: List.replicate 19 false) = 5 := by
      rw [error_rate, h1, h2]
      norm_num
    simp only [check_error_rate, init_state, cfgBase, hr, h1, h2]
    norm_num
  · have h1 : (true :: List.replicate 19 false).count true = 1 := by decide
    have h2 : (true :: List.replicate 19 false).length = 20 := by decide
    have hr : error_rate (true :: List.replicate 19 false) = 5 := by
      rw [error_rate, h1, h2]
      norm_num
    simp only [check_error_rate, init_state, cfgBase, hr, h1, h2]
    norm_num

/-- C2 witness: the firing rule instantiated at a concrete input — a
20-entry all-error window (rate 100 percent) evaluated at time 1000 with
the default configuration. -/
theorem check_error_rate_behavior_witness :
    (2 : ℚ) < error_rate (List.replicate 20 true)
    ∧ check_error_rate cfgBase
        { last_pool := "blue", request_window := List.replicate 20 true,
          last_failover_alert := 0, last_error_rate_alert := 0, log_count := 0 }
        1000
      = ({ last_pool := "blue", request_window := List.replicate 20 true,
           last_failover_alert := 0, last_error_rate_alert := 1000,
           log_count := 0 },
         some (.errorRate (error_rate (List.replicate 20 true)) 20 20 200)) := by
  have hrate : error_rate (List.replicate 20 true) = 100 := by
    rw [error_rate]
    norm_num
  constructor
  · rw [hrate]
    norm_num
  · exact check_error_rate_behavior.2.2.2.1 cfgBase
      { last_pool := "blue", request_window := List.replicate 20 true,
        last_failover_alert := 0, last_error_rate_alert := 0, log_count := 0 }
      1000 (by simp) (by simp only [cfgBase]; rw [hrate]; norm_num) (by decide)

/-- C4: the spec's examples hold and, wherever `int(status)` succeeds or is
skipped, the code's verdict agrees with the claim's rule `isError_claim`;
but a truthy non-numeric status (here `"abc"`) makes `int` raise instead
of falling through to the upstream check — the code evaluates to
`Except.error ()` where the claim demands the verdict `false`. -/
theorem is_error_nonnumeric_status_raises :
    is_error (.jstr "abc") (.jstr "200") = .error ()
    ∧ isError_claim (.jstr "abc") (.jstr "200") = false
    ∧ is_error (.jnum 503) .jnull = .ok true
    ∧ is_error (.jnum 200) (.jstr "502, 200") = .ok true
    ∧ is_error .jnull (.jstr "200") = .ok false
    ∧ (∀ (st us : JVal) (b : Bool), is_error st us = .ok b →
         b = isError_claim st us) := by
  refine ⟨by rfl, by decide, by rfl, by rfl, by rfl, ?_⟩
  intro st us b h
  by_cases ht : pyTruthy st = true
  · cases hp : pyInt st with
    | none => simp [is_error, ht, hp] at h
    | some n =>
      by_cases hn : 500 ≤ n
      · simp [is_error, ht, hp, hn] at h
        simp [isError_claim, ht, hp, hn, ← h]
      · simp [is_error, ht, hp, hn] at h
        simp [isError_claim, ht, hp, hn, ← h]
  · simp [is_error, ht] at h
    simp [isError_claim, ht, ← h]

/-- C4 witness: the agreement conjunct applied at a concrete input where
the classification succeeds (`status = 503`). -/
theorem is_error_nonnumeric_status_raises_witness :
    true = isError_claim (.jnum 503) .jnull :=
  is_error_nonnumeric_status_raises.2.2.2.2.2 (.jnum 503) .jnull true (by rfl)

/-- C8 counterexample: with a webhook configured and maintenance mode
enabled, the single startup notification of kind `"info"` is suppressed by
`send_slack_alert`'s maintenance check rather than delivered — the
maintenance-mode suppression rule DOES apply to it, contradicting the
claim. -/
theorem startup_info_suppressed_in_maintenance :
    cfgMaint.has_webhook = true
    ∧ cfgMaint.maintenance_mode = true
    ∧ (main_startup cfgMaint true).map (fun e => e.2.2) = [.suppressed] := by
  refine ⟨by decide, by decide, by decide⟩

/-- C8 (amended): on process start `main` hands the notifier exactly one
notification, of kind `"info"`, whose message names the initial active
pool; the ordinary maintenance-mode suppression applies to it, so it is
posted to the webhook if and only if a webhook is configured and
maintenance mode is off (otherwise it is skipped or suppressed). -/
theorem startup_notification_behavior :
    (∀ (cfg : Config) (httpOk : Bool), (main_startup cfg httpOk).length = 1)
    ∧ (∀ (cfg : Config) (httpOk : Bool) (e : String × String × SendOutcome),
        e ∈ main_startup cfg httpOk →
        e.2.1 = "info"
        ∧ hasSub cfg.active_pool.toList e.1.toList = true
        ∧ e.2.2 = send_slack_alert cfg httpOk "info")
    ∧ (∀ (cfg : Config) (httpOk : Bool),
        send_slack_alert cfg httpOk "info"
          = if !cfg.has_webhook then .noWebhook
            else if cfg.maintenance_mode then .suppressed
            else .posted httpOk) := by
  refine ⟨fun cfg httpOk => rfl, ?_, ?_⟩
  · intro cfg httpOk e he
    simp only [main_startup, List.mem_singleton] at he
    subst he
    refine ⟨rfl, ?_, rfl⟩
    have hdata : (startup_message cfg).toList
        = ("*Watcher Started*\n\nMonitoring is now active.\nInitial pool: `").toList
          ++ cfg.active_pool.toList ++ ("`").toList := by
      simp [startup_message]
    rw [hdata]
    exact hasSub_append_middle _ _ _
  · intro cfg httpOk
    cases hw : cfg.has_webhook with
    | false => simp [send_slack_alert, hw]
    | true =>
      cases hm : cfg.maintenance_mode with
      | false => simp [send_slack_alert, hw, hm]
      | true => simp [send_slack_alert, hw, hm]

/-- C8 witness: the amended description instantiated at the default
configuration — the startup entry is of kind `"info"` and its message
names the active pool `"blue"`. -/
theorem startup_notification_behavior_witness :
    (startup_message cfgBase, "info", send_slack_alert cfgBase true "info").2.1
      = "info"
    ∧ hasSub cfgBase.active_pool.toList (startup_message cfgBase).toList = true := by
  have h := startup_notification_behavior.2.1 cfgBase true
    (startup_message cfgBase, "info", send_slack_alert cfgBase true "info")
    (by simp [main_startup])
  exact ⟨h.1, h.2.1⟩

/-- C9: whenever a detection passes its cooldown check the detector state
is updated regardless of notification delivery: the post-state and the
fired flag of both `_full` detectors do not depend on webhook
configuration, maintenance mode, or HTTP success; the `_full` detectors
agree with the transport-free ones; and a passing detection always stamps
the corresponding timestamp with `now`, so later cooldown suppression runs
from the attempt. -/
theorem detector_state_independent_of_notifier :
    (∀ (cfg : Config) (h1 h2 : Bool) (b1 m1 b2 m2 : Bool) (s : WatcherState)
       (p : Option String) (now : Int),
       (check_failover_full { cfg with has_webhook := b1, maintenance_mode := m1 }
          h1 s p now).1
         = (check_failover_full { cfg with has_webhook := b2, maintenance_mode := m2 }
            h2 s p now).1)
    ∧ (∀ (cfg : Config) (h : Bool) (s : WatcherState) (p : Option String) (now : Int),
       (check_failover_full cfg h s p now).1 = (check_failover cfg s p now).1
       ∧ (check_failover_full cfg h s p now).2.1
           = (check_failover cfg s p now).2.isSome)
    ∧ (∀ (cfg : Config) (h : Bool) (s : WatcherState) (p : Option String) (now : Int),
       (check_failover_full cfg h s p now).2.1 = true →
       (check_failover_full cfg h s p now).1.last_failover_alert = now)
    ∧ (∀ (cfg : Config) (h1 h2 : Bool) (b1 m1 b2 m2 : Bool) (s : WatcherState)
       (now : Int),
       (check_error_rate_full { cfg with has_webhook := b1, maintenance_mode := m1 }
          h1 s now).1
         = (check_error_rate_full { cfg with has_webhook := b2, maintenance_mode := m2 }
            h2 s now).1)
    ∧ (∀ (cfg : Config) (h : Bool) (s : WatcherState) (now : Int),
       (check_error_rate_full cfg h s now).1 = (check_error_rate cfg s now).1
       ∧ (check_error_rate_full cfg h s now).2.1
           = (check_error_rate cfg s now).2.isSome)
    ∧ (∀ (cfg : Config) (h : Bool) (s : WatcherState) (now : Int),
       (check_error_rate_full cfg h s now).2.1 = true →
       (check_error_rate_full cfg h s now).1.last_error_rate_alert = now) := by
  refine ⟨?_, ?_, ?_, ?_, ?_, ?_⟩
  · intro cfg h1 h2 b1 m1 b2 m2 s p now
    cases p with
    | none => rfl
    | some q =>
      by_cases hq : q = ""
      · simp [check_failover_full, hq]
      · by_cases hl : q = s.last_pool
        · simp [check_failover_full, hq, hl]
        · by_cases hc : now - s.last_failover_alert < cfg.alert_cooldown
          · simp [check_failover_full, hq, hl, hc]
          · simp [check_failover_full, hq, hl, hc]
  · intro cfg h s p now
    cases p with
    | none => exact ⟨rfl, rfl⟩
    | some q =>
      by_cases hq : q = ""
      · simp [check_failover_full, check_failover, hq]
      · by_cases hl : q = s.last_pool
        · simp [check_failover_full, check_failover, hq, hl]
        · by_cases hc : now - s.last_failover_alert < cfg.alert_cooldown
          · simp [check_failover_full, check_failover, hq, hl, hc]
          · simp [check_failover_full, check_failover, hq, hl, hc]
  · intro cfg h s p now hfired
    cases p with
    | none => simp [check_failover_full] at hfired
    | some q =>
      by_cases hq : q = ""
      · simp [check_failover_full, hq] at hfired
      · by_cases hl : q = s.last_pool
        · simp [check_failover_full, hq, hl] at hfired
        · by_cases hc : now - s.last_failover_alert < cfg.alert_cooldown
          · simp [check_failover_full, hq, hl, hc] at hfired
          · simp [check_failover_full, hq, hl, hc]
  · intro cfg h1 h2 b1 m1 b2 m2 s now
    by_cases g1 : s.request_window.length < 20
    · simp [check_error_rate_full, g1]
    · by_cases g2 : error_rate s.request_window ≤ cfg.error_rate_threshold
      · simp [check_error_rate_full, g1, g2]
      · by_cases g3 : now - s.last_error_rate_alert < cfg.alert_cooldown
        · simp [check_error_rate_full, g1, g2, g3]
        · simp [check_error_rate_full, g1, g2, g3]
  · intro cfg h s now
    by_cases g1 : s.request_window.length < 20
    · simp [check_error_rate_full, check_error_rate, g1]
    · by_cases g2 : error_rate s.request_window ≤ cfg.error_rate_threshold
      · simp [check_error_rate_full, check_error_rate, g1, g2]
      · by_cases g3 : now - s.last_error_rate_alert < cfg.alert_cooldown
        · simp [check_error_rate_full, check_error_rate, g1, g2, g3]
        · simp [check_error_rate_full, check_error_rate, g1, g2, g3]
  · intro cfg h s now hfired
    by_cases g1 : s.request_window.length < 20
    · simp [check_error_rate_full, g1] at hfired
    · by_cases g2 : error_rate s.request_window ≤ cfg.error_rate_threshold
      · simp [check_error_rate_full, g1, g2] at hfired
      · by_cases g3 : now - s.last_error_rate_alert < cfg.alert_cooldown
        · simp [check_error_rate_full, g1, g2, g3] at hfired
        · simp [check_error_rate_full, g1, g2, g3]

/-- C9 witness: a failover detection that passes cooldown with no webhook
configured and maintenance mode on still stamps `last_failover_alert` with
the attempt time. -/
theorem detector_state_independent_of_notifier_witness :
    (check_failover_full { cfgMaint with has_webhook := false } true
      (init_state cfgBase) (some "green") 400).1.last_failover_alert = 400 := by
  exact detector_state_independent_of_notifier.2.2.1
    { cfgMaint with has_webhook := false } true (init_state cfgBase)
    (some "green") 400 (by decide)

lemma failover_stage_alert_is_failover (cfg : Config) (s : WatcherState)
    (pool : Option String) (now : Int) (a : AlertEvent)
    (h : (failover_stage cfg s pool now).2 = some a) :
    isErrorRateAlert a = false := by
  unfold failover_stage at h
  by_cases ht : optTruthy pool = true
  · rw [if_pos ht] at h
    exact check_failover_alert_is_failover cfg s pool now a h
  · rw [if_neg ht] at h
    simp at h

lemma error_stage_no_alert (cfg : Config) (hcap : cfg.window_size < 20)
    (s : WatcherState) (b : Bool) (now : Int) :
    (error_stage cfg s b now).2 = none := by
  unfold error_stage
  have hlen := dequePush_length_le cfg.window_size s.request_window b
  have hn : ¬ 20 ≤ (dequePush cfg.window_size s.request_window b).length := by
    omega
  simp [hn]

lemma process_log_entry_no_error_rate_alert (cfg : Config)
    (hcap : cfg.window_size < 20) (s : WatcherState) (e : LogEntry) (now : Int) :
    ∀ a ∈ (process_log_entry cfg s e now).2.1, isErrorRateAlert a = false := by
  intro a ha
  simp only [process_log_entry] at ha
  cases hie : is_error e.status e.upstream_status with
  | error u =>
    rw [hie] at ha
    simp only [Option.mem_toList, Option.mem_def] at ha
    exact failover_stage_alert_is_failover _ _ _ _ a ha
  | ok isErr =>
    rw [hie] at ha
    simp only [List.mem_append, Option.mem_toList, Option.mem_def] at ha
    rcases ha with ha | ha
    · exact failover_stage_alert_is_failover _ _ _ _ a ha
    · rw [error_stage_no_alert cfg hcap _ isErr now] at ha
      cases ha

/-- C10: with a configured window capacity strictly below 20, the
error-rate detector can never fire: along any processed record sequence,
no dispatched alert is an error-rate alert, because the window's length
never exceeds its capacity while the minimum-sample guard compares the
fixed constant 20 against that length. -/
theorem small_window_never_error_rate_alerts :
    ∀ (cfg : Config), cfg.window_size < 20 →
    ∀ (s : WatcherState) (events : List (LogEntry × Int)),
      ∀ a ∈ (process_trace cfg s events).2, isErrorRateAlert a = false := by
  intro cfg hcap s events
  induction events generalizing s with
  | nil =>
    intro a ha
    simp [process_trace] at ha
  | cons ev rest ih =>
    intro a ha
    obtain ⟨e, t⟩ := ev
    simp only [process_trace] at ha
    by_cases hcr : (process_log_entry cfg s e t).2.2 = true
    · rw [if_pos hcr] at ha
      exact process_log_entry_no_error_rate_alert cfg hcap s e t a ha
    · rw [if_neg hcr] at ha
      simp only [List.mem_append] at ha
      rcases ha with ha | ha
      · exact process_log_entry_no_error_rate_alert cfg hcap s e t a ha
      · exact ih _ a ha

/-- C10 witness: a capacity-19 configuration processing two all-error
records dispatches no error-rate alert. -/
theorem small_window_never_error_rate_alerts_witness :
    ({ cfgBase with window_size := 19 } : Config).window_size < 20
    ∧ ∀ a ∈ (process_trace { cfgBase with window_size := 19 }
        (init_state cfgBase)
        [({ pool := some "blue", upstream_addr := none, status := .jnum 503,
            upstream_status := .jnull }, 1000),
         ({ pool := some "green", upstream_addr := none, status := .jnum 503,
            upstream_status := .jnull }, 1001)]).2,
        isErrorRateAlert a = false :=
  ⟨by decide,
   small_window_never_error_rate_alerts { cfgBase with window_size := 19 }
     (by decide) (init_state cfgBase) _⟩

end Watcher
